import Mathlib

/-!
# Aurelio — ledger dual-write and migration registry, verified

Shallow embedding of the ledger frontend (`AppHome.vue`: `saveToLadger`,
`updateDebitCreditValues`, `onMounted`) and of the migration registry
(`src-tauri/src/db/migrations/mod.rs`: `all_migrations`), with theorems
checking the specification's claims against these definitions.

The frontend state (`ref`s `debitor`, `debit`, `credit`, `creditor`, `db`,
`transactions`) is modelled as explicit record state.  JavaScript numbers
entered through the money fields are modelled as integers (minor units), the
filesystem as a list of home-relative directories and `(path, content)`
files, the SQLite `transactions` table as a list of rows in insertion order
with an autoincrementing `id`, and each `new Date().toISOString()` call as a
read from the environment (`t0` for the first read, `t1` for the second).
Fallibility of each awaited plugin call is an environment flag; a raised
JavaScript exception is an `Option JsError` threaded out of the `try` body.
-/

namespace Aurelio

/-- One row of the SQLite `transactions` table
(`id INTEGER PRIMARY KEY AUTOINCREMENT`, then the five columns inserted by
`saveToLadger`). -/
structure Row where
  id : Nat
  debitor : String
  debit : Int
  credit : Int
  creditor : String
  timestamp : String
deriving Repr, DecidableEq

/-- The four form `ref`s of `AppHome.vue`: `debitor`, `debit`, `credit`,
`creditor`. -/
structure FormState where
  debitor : String
  debit : Int
  credit : Int
  creditor : String
deriving Repr, DecidableEq

/-- Home-relative filesystem state seen through `@tauri-apps/plugin-fs`
(`exists`, `mkdir`, `writeTextFile` with `BaseDirectory.Home`). -/
structure FS where
  dirs : List String
  files : List (String × String)
deriving Repr, DecidableEq

/-- The whole component state: form fields, filesystem, the `transactions`
table of `aurelio.db`, and the `transactions` ref (the read model). -/
structure AppState where
  form : FormState
  fs : FS
  db : List Row
  transactions : List Row
deriving Repr, DecidableEq

/-- Which awaited call inside `saveToLadger`'s `try` block raised: the
`exists` check, `mkdir`, `writeTextFile`, the `INSERT` via `db.execute`, or
the `select` refreshing the read model. -/
inductive JsError where
  | existsErr
  | mkdirErr
  | writeErr
  | dbExecErr
  | dbSelectErr
deriving Repr, DecidableEq

/-- Environment of one `saveToLadger` run: a failure flag per awaited call
and the strings returned by the first (`t0`, line 21) and second (`t1`,
line 48) `new Date().toISOString()` calls. -/
structure Env where
  existsFails : Bool
  mkdirFails : Bool
  writeFails : Bool
  dbExecFails : Bool
  dbSelectFails : Bool
  t0 : String
  t1 : String
deriving Repr, DecidableEq

/-- `updateDebitCreditValues` (AppHome.vue lines 62-66):
`credit.value = Math.abs(value); debit.value = value > 0 ? -(value) : value`. -/
def updateDebitCreditValues (value : Int) (s : FormState) : FormState :=
  { s with credit := |value|, debit := if value > 0 then -value else value }

/-- The front-matter string built at AppHome.vue line 17:
`` `---\ndebitor: ${debitor.value}\ndebit: ${debit.value}\ncredit: ${credit.value}\ncreditor: ${creditor.value}\n---\n` ``. -/
def ladgerContent (f : FormState) : String :=
  "---\ndebitor: " ++ f.debitor ++ "\ndebit: " ++ toString f.debit ++
    "\ncredit: " ++ toString f.credit ++ "\ncreditor: " ++ f.creditor ++ "\n---\n"

/-- `timestamp.replace(/[:.]/g, '-')` applied to an ISO-8601 string
(AppHome.vue line 21). -/
def sanitizeTimestamp (ts : String) : String :=
  String.mk (ts.data.map fun c => if c = ':' ∨ c = '.' then '-' else c)

/-- The `dirPath` constant of AppHome.vue line 20 (home-relative). -/
def dirPath : String := "Vault/Finance/Transactions"

/-- The `try` block of `saveToLadger` (AppHome.vue lines 19-56), returning
the state after whatever side effects happened together with the raised
exception, if any.  Steps in source order: `exists` check, conditional
`mkdir`, `writeTextFile`, `db.execute` INSERT (reading the clock a second
time for the row's timestamp, line 48), `select * from transactions` into
the read model, then clearing the four form fields (lines 52-55). -/
def saveToLadgerTry (env : Env) (s : AppState) : AppState × Option JsError :=
  let content := ladgerContent s.form
  let fullPath := dirPath ++ "/" ++ ("ladger-entry-" ++ sanitizeTimestamp env.t0 ++ ".md")
  if env.existsFails then (s, some .existsErr)
  else
    let dirExists := s.fs.dirs.contains dirPath
    if !dirExists && env.mkdirFails then (s, some .mkdirErr)
    else
      let s1 := if dirExists then s else
        { s with fs := { s.fs with dirs := s.fs.dirs ++ [dirPath] } }
      if env.writeFails then (s1, some .writeErr)
      else
        let s2 := { s1 with fs := { s1.fs with files := s1.fs.files ++ [(fullPath, content)] } }
        if env.dbExecFails then (s2, some .dbExecErr)
        else
          let row : Row :=
            { id := s2.db.length + 1
              debitor := s.form.debitor
              debit := s.form.debit
              credit := s.form.credit
              creditor := s.form.creditor
              timestamp := env.t1 }
          let s3 := { s2 with db := s2.db ++ [row] }
          if env.dbSelectFails then (s3, some .dbSelectErr)
          else
            let s4 := { s3 with transactions := s3.db }
            ({ s4 with form := { debitor := "", debit := 0, credit := 0, creditor := "" } }, none)

/-- Outcome of one `saveToLadger` call: the final component state, the
exception propagated to the caller (`thrown`), and the error value passed to
`console.error` by the `catch` block (`logged`). -/
structure SaveResult where
  state : AppState
  thrown : Option JsError
  logged : Option JsError
deriving Repr, DecidableEq

/-- `saveToLadger` (AppHome.vue lines 15-61): run the `try` body; the
`catch` block (lines 57-59) logs any raised error and does not rethrow, so
nothing ever propagates to the caller. -/
def saveToLadger (env : Env) (s : AppState) : SaveResult :=
  match saveToLadgerTry env s with
  | (s1, some err) => { state := s1, thrown := none, logged := some err }
  | (s1, none) => { state := s1, thrown := none, logged := none }

/-- `onMounted` (AppHome.vue lines 68-71): load the database handle and
replace the read model with `select * from transactions`. -/
def onMounted (s : AppState) : AppState :=
  { s with transactions := s.db }

/-- `tauri_plugin_sql::MigrationKind` as used by the repository: only the
forward (`Up`) kind appears. -/
inductive MigrationKind where
  | up
deriving Repr, DecidableEq

/-- `tauri_plugin_sql::Migration`: `{version, description, sql, kind}` with
`version: i64` modelled as `Int`. -/
structure Migration where
  version : Int
  description : String
  sql : String
  kind : MigrationKind
deriving Repr, DecidableEq

/-- The key ordering used by `migrations.sort_by_key(|m| m.version)`. -/
def byVersion (a b : Migration) : Prop :=
  a.version ≤ b.version

instance : DecidableRel byVersion := fun a b =>
  inferInstanceAs (Decidable (a.version ≤ b.version))

instance : IsTotal Migration byVersion :=
  ⟨fun a b => le_total a.version b.version⟩

instance : IsTrans Migration byVersion :=
  ⟨fun _ _ _ hab hbc => le_trans hab hbc⟩

/-- `all_migrations` (`src-tauri/src/db/migrations/mod.rs`): collect the
registered migrations, stably sort them by `version`
(`sort_by_key`), then — only under `#[cfg(debug_assertions)]` — walk the
sorted vector inserting each version into a `HashSet` and `assert!` that no
version repeats.  A firing assertion aborts before the vector is returned,
modelled as `none`; otherwise the sorted vector is returned. -/
def all_migrations (debugAssertions : Bool) (migs : List Migration) : Option (List Migration) :=
  let sorted := List.insertionSort byVersion migs
  if debugAssertions ∧ ¬ (sorted.map Migration.version).Nodup then none
  else some sorted

/-- One of steps 1-3 of the dual write raises: the `exists` check fails, the
directory is absent and `mkdir` fails, or `writeTextFile` fails. -/
def archiveStepFails (env : Env) (s : AppState) : Prop :=
  env.existsFails = true ∨
    (s.fs.dirs.contains dirPath = false ∧ env.mkdirFails = true) ∨
    env.writeFails = true

instance (env : Env) (s : AppState) : Decidable (archiveStepFails env s) :=
  inferInstanceAs (Decidable (_ ∨ _))

/-- The `transactions` table is well formed: its `id` column holds the
autoincrement values `1, 2, ..., length` in insertion order. -/
def wfDb (db : List Row) : Prop :=
  db.map Row.id = (List.range db.length).map (· + 1)

/-- An environment in which every awaited call succeeds and both clock reads
return the same instant. -/
def envOK : Env :=
  { existsFails := false, mkdirFails := false, writeFails := false,
    dbExecFails := false, dbSelectFails := false,
    t0 := "2025-01-01T00:00:00.000Z", t1 := "2025-01-01T00:00:00.000Z" }

/-- Like `envOK` but the `INSERT` via `db.execute` fails. -/
def envDbFail : Env :=
  { envOK with dbExecFails := true }

/-- Like `envOK` but the process clock advances by one millisecond between
the two `new Date()` calls. -/
def envTwoReads : Env :=
  { envOK with t1 := "2025-01-01T00:00:00.001Z" }

/-- A concrete component state: filled form, archival directory already
present, empty `transactions` table. -/
def st0 : AppState :=
  { form := { debitor := "Alice", debit := -5000, credit := 5000, creditor := "Bob" },
    fs := { dirs := ["Vault/Finance/Transactions"], files := [] },
    db := [], transactions := [] }

/-- The state reached after the operator enters magnitude `0`: the form
holds `debit = 0, credit = 0` as produced by `updateDebitCreditValues 0`. -/
def zeroState : AppState :=
  { st0 with
    form := updateDebitCreditValues 0 { debitor := "Alice", debit := 7, credit := 7, creditor := "Bob" } }

/-- A concrete migration descriptor (version `20250115_000001`). -/
def migA : Migration :=
  { version := 20250115000001, description := "create users table",
    sql := "CREATE TABLE users", kind := .up }

/-- A second descriptor carrying the same version as `migA`. -/
def migB : Migration :=
  { version := 20250115000001, description := "create accounts table",
    sql := "CREATE TABLE accounts", kind := .up }

/-- Descriptor with version `20250115_000002`. -/
def migC : Migration :=
  { version := 20250115000002, description := "create transactions table",
    sql := "CREATE TABLE transactions", kind := .up }

/-- Descriptor with version `20250201_000001`. -/
def migD : Migration :=
  { version := 20250201000001, description := "add categories", kind := .up,
    sql := "ALTER TABLE transactions ADD COLUMN category TEXT" }

/-- C1: for every non-zero signed magnitude `m` entered by the operator,
`updateDebitCreditValues` yields `credit = |m|` and `debit = -|m|`, hence
`credit + debit = 0` for every constructed entry (balance invariant). -/
theorem updateDebitCreditValues_balance (m : Int) (s : FormState) (_hm : m ≠ 0) :
    (updateDebitCreditValues m s).credit = |m| ∧
    (updateDebitCreditValues m s).debit = -|m| ∧
    (updateDebitCreditValues m s).credit + (updateDebitCreditValues m s).debit = 0 := by
  have habs : (if m > 0 then -m else m) = -|m| := by
    rcases le_or_lt m 0 with h | h
    · rw [if_neg (not_lt.mpr h), abs_of_nonpos h, neg_neg]
    · rw [if_pos h, abs_of_pos h]
  refine ⟨rfl, ?_, ?_⟩
  · show (if m > 0 then -m else m) = -|m|
    exact habs
  · show |m| + (if m > 0 then -m else m) = 0
    rw [habs]
    exact add_neg_cancel |m|

/-- Witness for C1 at magnitude `5000` (spec §8 end-to-end example). -/
theorem updateDebitCreditValues_balance_witness :
    (updateDebitCreditValues 5000 ⟨"Alice", 0, 0, "Bob"⟩).credit = |(5000 : Int)| ∧
    (updateDebitCreditValues 5000 ⟨"Alice", 0, 0, "Bob"⟩).debit = -|(5000 : Int)| ∧
    (updateDebitCreditValues 5000 ⟨"Alice", 0, 0, "Bob"⟩).credit +
      (updateDebitCreditValues 5000 ⟨"Alice", 0, 0, "Bob"⟩).debit = 0 :=
  updateDebitCreditValues_balance 5000 ⟨"Alice", 0, 0, "Bob"⟩ (by decide)

/-- Strict version order on descriptors; antisymmetric because two strict
inequalities between the same versions are contradictory. -/
instance : IsAntisymm Migration fun a b => a.version < b.version :=
  ⟨fun _ _ h1 h2 => absurd (h1.trans h2) (lt_irrefl _)⟩

/-- A version-nodup list sorts to a version-strictly-sorted list. -/
theorem sorted_strict_of_nodup_versions {l : List Migration}
    (hs : List.Sorted byVersion l) (hnd : (l.map Migration.version).Nodup) :
    List.Sorted (fun a b : Migration => a.version < b.version) l := by
  have hne : List.Pairwise (fun a b : Migration => a.version ≠ b.version) l :=
    List.pairwise_map.mp hnd
  exact (hs.and hne).imp fun hab => lt_of_le_of_ne hab.1 hab.2

/-- C6: for pairwise-distinct versions, `all_migrations` returns exactly the
registered descriptors sorted ascending by version, and the result is the
same for every registration order of the same set — in both build
configurations. -/
theorem all_migrations_sorted_order_independent (d : Bool) (l₁ l₂ : List Migration)
    (hperm : l₁.Perm l₂) (hnd : (l₁.map Migration.version).Nodup) :
    (∃ out, all_migrations d l₁ = some out ∧ out.Perm l₁ ∧ List.Sorted byVersion out) ∧
    all_migrations d l₁ = all_migrations d l₂ := by
  set s₁ := List.insertionSort byVersion l₁ with hs₁def
  set s₂ := List.insertionSort byVersion l₂ with hs₂def
  have hp₁ : s₁.Perm l₁ := List.perm_insertionSort byVersion l₁
  have hp₂ : s₂.Perm l₂ := List.perm_insertionSort byVersion l₂
  have hsort₁ : List.Sorted byVersion s₁ := List.sorted_insertionSort byVersion l₁
  have hsort₂ : List.Sorted byVersion s₂ := List.sorted_insertionSort byVersion l₂
  have hnd₁ : (s₁.map Migration.version).Nodup :=
    ((hp₁.map Migration.version).nodup_iff).mpr hnd
  have hnd₂ : (s₂.map Migration.version).Nodup :=
    ((hp₂.map Migration.version).nodup_iff).mpr
      (((hperm.map Migration.version).nodup_iff).mp hnd)
  have heq : s₁ = s₂ := by
    have hps : s₁.Perm s₂ := hp₁.trans (hperm.trans hp₂.symm)
    exact List.eq_of_perm_of_sorted hps
      (sorted_strict_of_nodup_versions hsort₁ hnd₁)
      (sorted_strict_of_nodup_versions hsort₂ hnd₂)
  have hrun₁ : all_migrations d l₁ = some s₁ := by
    unfold all_migrations
    rw [← hs₁def, if_neg]
    intro hc
    exact hc.2 hnd₁
  have hrun₂ : all_migrations d l₂ = some s₂ := by
    unfold all_migrations
    rw [← hs₂def, if_neg]
    intro hc
    exact hc.2 hnd₂
  exact ⟨⟨s₁, hrun₁, hp₁, hsort₁⟩, by rw [hrun₁, hrun₂, heq]⟩

/-- Witness for C6: the spec §8 example — registering versions
`[20250201_000001, 20250115_000001, 20250115_000002]` in that order yields
the same finalized sequence as registering them already sorted. -/
theorem all_migrations_sorted_order_independent_witness :
    (∃ out, all_migrations true [migD, migA, migC] = some out ∧
      out.Perm [migD, migA, migC] ∧ List.Sorted byVersion out) ∧
    all_migrations true [migD, migA, migC] = all_migrations true [migA, migC, migD] :=
  all_migrations_sorted_order_independent true [migD, migA, migC] [migA, migC, migD]
    (by decide) (by decide)

/-- C3 counterexample: with debug assertions disabled (a release build), two
descriptors sharing version `20250115_000001` pass `all_migrations`
undetected — the duplicate pair is returned to the Schema Applier instead of
failing. -/
theorem all_migrations_release_passes_duplicates :
    all_migrations false [migA, migB] = some [migA, migB] := by decide

/-- C3 amended: when debug assertions are enabled, `all_migrations` with any
duplicated version aborts (assertion failure) before the sequence is handed
to the Schema Applier. -/
theorem all_migrations_debug_detects_duplicates (migs : List Migration)
    (hd : ¬ (migs.map Migration.version).Nodup) :
    all_migrations true migs = none := by
  unfold all_migrations
  rw [if_pos]
  refine ⟨rfl, fun hnd => hd ?_⟩
  exact (((List.perm_insertionSort byVersion migs).map Migration.version).nodup_iff).mp hnd

/-- Witness for the amended C3 at the concrete duplicate pair. -/
theorem all_migrations_debug_detects_duplicates_witness :
    all_migrations true [migA, migB] = none :=
  all_migrations_debug_detects_duplicates [migA, migB] (by decide)

/-- C2: if the archival part of the dual write fails (`exists` check,
needed `mkdir`, or `writeTextFile`), `saveToLadger` aborts before the
database step: table, files and read model are all unchanged; and the
database only ever changes together with a successful archival write — a
changed table implies `writeFails = false` and the archival file appended. -/
theorem saveToLadger_archive_failure_no_insert (env : Env) (s : AppState) :
    (archiveStepFails env s →
      (saveToLadger env s).state.db = s.db ∧
      (saveToLadger env s).state.fs.files = s.fs.files ∧
      (saveToLadger env s).state.transactions = s.transactions) ∧
    ((saveToLadger env s).state.db ≠ s.db →
      env.writeFails = false ∧
      (saveToLadger env s).state.fs.files =
        s.fs.files ++
          [(dirPath ++ "/" ++ ("ladger-entry-" ++ sanitizeTimestamp env.t0 ++ ".md"),
            ladgerContent s.form)]) := by
  obtain ⟨ef, mf, wf, df, sf, t0, t1⟩ := env
  cases ef <;> cases mf <;> cases wf <;> cases df <;> cases sf <;>
    cases hc : s.fs.dirs.contains dirPath <;>
      simp_all [saveToLadger, saveToLadgerTry, archiveStepFails]

/-- Witness for C2: with the archival write failing on `st0`, no row is
inserted. -/
theorem saveToLadger_archive_failure_no_insert_witness :
    ((saveToLadger { envOK with writeFails := true } st0).state.db = st0.db ∧
      (saveToLadger { envOK with writeFails := true } st0).state.fs.files = st0.fs.files ∧
      (saveToLadger { envOK with writeFails := true } st0).state.transactions =
        st0.transactions) :=
  (saveToLadger_archive_failure_no_insert { envOK with writeFails := true } st0).1
    (Or.inr (Or.inr (by decide)))

/-- C8: whenever the archival steps succeed, the artifact written is exactly
the front-matter text `---\n<key>: <value>\n...\n---\n` with keys in the
fixed order `debitor, debit, credit, creditor`, at the home-relative path
`Vault/Finance/Transactions/ladger-entry-<sanitized-ISO8601-timestamp>.md`. -/
theorem saveToLadger_archive_artifact (env : Env) (s : AppState)
    (he : env.existsFails = false) (hm : env.mkdirFails = false)
    (hw : env.writeFails = false) :
    (saveToLadger env s).state.fs.files =
      s.fs.files ++
        [("Vault/Finance/Transactions" ++ "/" ++
            ("ladger-entry-" ++ sanitizeTimestamp env.t0 ++ ".md"),
          "---\ndebitor: " ++ s.form.debitor ++ "\ndebit: " ++ toString s.form.debit ++
            "\ncredit: " ++ toString s.form.credit ++ "\ncreditor: " ++ s.form.creditor ++
            "\n---\n")] := by
  obtain ⟨ef, mf, wf, df, sf, t0, t1⟩ := env
  subst he hm hw
  cases df <;> cases sf <;> cases hc : s.fs.dirs.contains dirPath <;>
    simp_all [saveToLadger, saveToLadgerTry, dirPath, ladgerContent]

/-- Witness for C8 on `st0` with every call succeeding. -/
theorem saveToLadger_archive_artifact_witness :
    (saveToLadger envOK st0).state.fs.files =
      st0.fs.files ++
        [("Vault/Finance/Transactions" ++ "/" ++
            ("ladger-entry-" ++ sanitizeTimestamp envOK.t0 ++ ".md"),
          "---\ndebitor: " ++ st0.form.debitor ++ "\ndebit: " ++ toString st0.form.debit ++
            "\ncredit: " ++ toString st0.form.credit ++ "\ncreditor: " ++ st0.form.creditor ++
            "\n---\n")] :=
  saveToLadger_archive_artifact envOK st0 rfl rfl rfl

/-- C10: every exception raised inside `saveToLadger` is caught — nothing
propagates to the caller — and the four form fields keep exactly their
invocation values whenever any step raised; they are reset only when every
step succeeded. -/
theorem saveToLadger_catches_preserves_form (env : Env) (s : AppState) :
    (saveToLadger env s).thrown = none ∧
    ((saveToLadger env s).logged.isSome = true →
      (saveToLadger env s).state.form = s.form) ∧
    ((saveToLadger env s).logged = none →
      (saveToLadger env s).state.form =
        { debitor := "", debit := 0, credit := 0, creditor := "" }) := by
  obtain ⟨ef, mf, wf, df, sf, t0, t1⟩ := env
  cases ef <;> cases mf <;> cases wf <;> cases df <;> cases sf <;>
    cases hc : s.fs.dirs.contains dirPath <;>
      simp_all [saveToLadger, saveToLadgerTry]

/-- Witness for C10: the database-insert failure on `st0` is caught and the
form keeps its values. -/
theorem saveToLadger_catches_preserves_form_witness :
    (saveToLadger envDbFail st0).thrown = none ∧
    ((saveToLadger envDbFail st0).logged.isSome = true →
      (saveToLadger envDbFail st0).state.form = st0.form) ∧
    ((saveToLadger envDbFail st0).logged = none →
      (saveToLadger envDbFail st0).state.form =
        { debitor := "", debit := 0, credit := 0, creditor := "" }) :=
  saveToLadger_catches_preserves_form envDbFail st0

/-- C5 counterexample: on `st0` with the `INSERT` failing after a successful
archival write, the archival file exists, the table is unchanged, and yet
nothing at all reaches the caller: the exception is swallowed
(`thrown = none`), contradicting the claim that the failure is surfaced as a
distinguishable `DatabaseWriteFailed`. -/
theorem saveToLadger_db_failure_not_surfaced :
    (saveToLadger envDbFail st0).state.fs.files ≠ [] ∧
    (saveToLadger envDbFail st0).state.db = [] ∧
    (saveToLadger envDbFail st0).thrown = none := by decide

/-- C5 amended: a database-insert failure after a successful archival write
is caught by the single `catch` handler; the underlying error value
(`dbExecErr`, distinct from the archival `writeErr`) appears only in the
console log, and no error is surfaced to the caller. -/
theorem saveToLadger_db_failure_logged_only (env : Env) (s : AppState)
    (he : env.existsFails = false) (hm : env.mkdirFails = false)
    (hw : env.writeFails = false) (hd : env.dbExecFails = true) :
    (saveToLadger env s).logged = some JsError.dbExecErr ∧
    JsError.dbExecErr ≠ JsError.writeErr ∧
    (saveToLadger env s).thrown = none := by
  obtain ⟨ef, mf, wf, df, sf, t0, t1⟩ := env
  subst he hm hw hd
  cases sf <;> cases hc : s.fs.dirs.contains dirPath <;>
    simp_all [saveToLadger, saveToLadgerTry]

/-- Witness for the amended C5 on `st0`. -/
theorem saveToLadger_db_failure_logged_only_witness :
    (saveToLadger envDbFail st0).logged = some JsError.dbExecErr ∧
    JsError.dbExecErr ≠ JsError.writeErr ∧
    (saveToLadger envDbFail st0).thrown = none :=
  saveToLadger_db_failure_logged_only envDbFail st0 rfl rfl rfl rfl

/-- C4 counterexample: after the operator enters magnitude `0`
(`zeroState` holds `updateDebitCreditValues 0`'s output, `debit = 0` and
`credit = 0`), `saveToLadger` runs with no error: it writes an archival file
AND inserts a database row for the zero-magnitude entry — no `ZeroAmount`
rejection exists anywhere. -/
theorem saveToLadger_zero_amount_persisted :
    zeroState.form.debit = 0 ∧ zeroState.form.credit = 0 ∧
    (saveToLadger envOK zeroState).state.db ≠ [] ∧
    (saveToLadger envOK zeroState).state.fs.files ≠ [] ∧
    (saveToLadger envOK zeroState).logged = none := by decide

/-- C4 amended: magnitude `0` yields `debit = 0` and `credit = 0` with no
validation error, and `saveToLadger` performs the dual write for it like for
any other entry: with the steps succeeding, a row with `debit = 0` and
`credit = 0` is inserted and an archival file is written. -/
theorem saveToLadger_zero_amount_dual_write (env : Env) (s : AppState)
    (he : env.existsFails = false) (hm : env.mkdirFails = false)
    (hw : env.writeFails = false) (hd : env.dbExecFails = false)
    (hdz : s.form.debit = 0) (hcz : s.form.credit = 0) :
    (updateDebitCreditValues 0 s.form).debit = 0 ∧
    (updateDebitCreditValues 0 s.form).credit = 0 ∧
    (saveToLadger env s).state.db =
      s.db ++
        [{ id := s.db.length + 1, debitor := s.form.debitor, debit := 0, credit := 0,
           creditor := s.form.creditor, timestamp := env.t1 }] ∧
    (saveToLadger env s).state.fs.files ≠ s.fs.files := by
  obtain ⟨ef, mf, wf, df, sf, t0, t1⟩ := env
  subst he hm hw hd
  cases sf <;> cases hc : s.fs.dirs.contains dirPath <;>
    simp_all [saveToLadger, saveToLadgerTry, updateDebitCreditValues]

/-- Witness for the amended C4 at `zeroState`. -/
theorem saveToLadger_zero_amount_dual_write_witness :
    (updateDebitCreditValues 0 zeroState.form).debit = 0 ∧
    (updateDebitCreditValues 0 zeroState.form).credit = 0 ∧
    (saveToLadger envOK zeroState).state.db =
      zeroState.db ++
        [{ id := zeroState.db.length + 1, debitor := zeroState.form.debitor, debit := 0,
           credit := 0, creditor := zeroState.form.creditor, timestamp := envOK.t1 }] ∧
    (saveToLadger envOK zeroState).state.fs.files ≠ zeroState.fs.files :=
  saveToLadger_zero_amount_dual_write envOK zeroState rfl rfl rfl rfl (by decide) (by decide)

/-- C7 counterexample: with the clock advancing one millisecond between the
two `new Date()` calls, the recorded row's timestamp is the second reading
while the archival filename embeds the sanitized first reading — two
different values, so the timestamp is not a single value assigned once. -/
theorem saveToLadger_two_timestamp_reads :
    (saveToLadger envTwoReads st0).state.db.map Row.timestamp =
      ["2025-01-01T00:00:00.001Z"] ∧
    (saveToLadger envTwoReads st0).state.fs.files.map Prod.fst =
      ["Vault/Finance/Transactions/ladger-entry-2025-01-01T00-00-00-000Z.md"] ∧
    sanitizeTimestamp "2025-01-01T00:00:00.001Z" ≠ "2025-01-01T00-00-00-000Z" := by decide

/-- C7 amended: file and row are rendered from the same four form fields
(`debitor, debit, credit, creditor`), but the timestamp is read twice — the
filename takes the first reading, the row the second — so the two
representations carry the same timestamp only when the readings coincide. -/
theorem saveToLadger_file_row_agreement (env : Env) (s : AppState)
    (he : env.existsFails = false) (hm : env.mkdirFails = false)
    (hw : env.writeFails = false) (hd : env.dbExecFails = false) :
    (saveToLadger env s).state.db =
      s.db ++
        [{ id := s.db.length + 1, debitor := s.form.debitor, debit := s.form.debit,
           credit := s.form.credit, creditor := s.form.creditor, timestamp := env.t1 }] ∧
    (saveToLadger env s).state.fs.files =
      s.fs.files ++
        [(dirPath ++ "/" ++ ("ladger-entry-" ++ sanitizeTimestamp env.t0 ++ ".md"),
          ladgerContent s.form)] ∧
    (env.t0 = env.t1 →
      "ladger-entry-" ++ sanitizeTimestamp env.t1 ++ ".md" =
        "ladger-entry-" ++ sanitizeTimestamp env.t0 ++ ".md") := by
  obtain ⟨ef, mf, wf, df, sf, t0, t1⟩ := env
  subst he hm hw hd
  cases sf <;> cases hc : s.fs.dirs.contains dirPath <;>
    simp_all [saveToLadger, saveToLadgerTry]

/-- Witness for the amended C7 on `st0` with coinciding readings. -/
theorem saveToLadger_file_row_agreement_witness :
    (saveToLadger envOK st0).state.db =
      st0.db ++
        [{ id := st0.db.length + 1, debitor := st0.form.debitor, debit := st0.form.debit,
           credit := st0.form.credit, creditor := st0.form.creditor,
           timestamp := envOK.t1 }] ∧
    (saveToLadger envOK st0).state.fs.files =
      st0.fs.files ++
        [(dirPath ++ "/" ++ ("ladger-entry-" ++ sanitizeTimestamp envOK.t0 ++ ".md"),
          ladgerContent st0.form)] ∧
    (envOK.t0 = envOK.t1 →
      "ladger-entry-" ++ sanitizeTimestamp envOK.t1 ++ ".md" =
        "ladger-entry-" ++ sanitizeTimestamp envOK.t0 ++ ".md") :=
  saveToLadger_file_row_agreement envOK st0 rfl rfl rfl rfl

/-- C9: each refresh site (`onMounted` and the post-insert `select` in
`saveToLadger`) replaces the read model with the full current table, no
filtering or paging; on a well-formed table the `id`s (primary keys) of the
produced sequence are strictly ascending, i.e. insertion order. -/
theorem transactions_refresh_full_ordered (env : Env) (s : AppState) :
    (onMounted s).transactions = s.db ∧
    ((saveToLadger env s).logged = none →
      (saveToLadger env s).state.transactions = (saveToLadger env s).state.db) ∧
    (wfDb s.db → wfDb (saveToLadger env s).state.db) ∧
    (wfDb s.db → List.Sorted (· < ·) ((onMounted s).transactions.map Row.id)) := by
  refine ⟨rfl, ?_, ?_, ?_⟩
  · obtain ⟨ef, mf, wf, df, sf, t0, t1⟩ := env
    cases ef <;> cases mf <;> cases wf <;> cases df <;> cases sf <;>
      cases hc : s.fs.dirs.contains dirPath <;>
        simp_all [saveToLadger, saveToLadgerTry]
  · intro h
    obtain ⟨ef, mf, wf, df, sf, t0, t1⟩ := env
    cases ef <;> cases mf <;> cases wf <;> cases df <;> cases sf <;>
      cases hc : s.fs.dirs.contains dirPath <;>
        simp_all [saveToLadger, saveToLadgerTry, wfDb, List.range_succ]
  · intro h
    show List.Sorted (· < ·) (s.db.map Row.id)
    rw [wfDb] at h
    rw [h]
    exact List.pairwise_map.mpr
      ((List.pairwise_lt_range s.db.length).imp fun hab => Nat.add_lt_add_right hab 1)

/-- Witness for C9 on `st0` with every call succeeding. -/
theorem transactions_refresh_full_ordered_witness :
    (onMounted st0).transactions = st0.db ∧
    ((saveToLadger envOK st0).logged = none →
      (saveToLadger envOK st0).state.transactions = (saveToLadger envOK st0).state.db) ∧
    (wfDb st0.db → wfDb (saveToLadger envOK st0).state.db) ∧
    (wfDb st0.db → List.Sorted (· < ·) ((onMounted st0).transactions.map Row.id)) :=
  transactions_refresh_full_ordered envOK st0

end Aurelio
